import Mathlib

/-!
Verification of the GWO-AMD quality-code normalization, format-conversion and
gap-filling engine.

The Python sources are shallowly embedded: machine floats become exact
rationals (`ℚ`), fallible parses become `Option`, pandas `NaN` cells become
`none`, and each conversion function is translated branch-for-branch from the
source.  CSV cells reaching the converters are text tokens; they are embedded
as an inductive type whose constructors are exactly the token classes the
Python code distinguishes (`pd.isna`, `""`, `"--"`, `"nan"`, a numeric token,
any other text).
-/

namespace GwoAmd

/-- Python 3 `round` / numpy `round`: round half to even (banker's rounding),
modelled on exact rationals. -/
def pyRound (q : ℚ) : ℤ :=
  let f := ⌊q⌋
  let r := q - f
  if r < 1 / 2 then f
  else if 1 / 2 < r then f + 1
  else if 2 ∣ f then f else f + 1

/-- Python `int()` applied to a float: truncation toward zero. -/
def truncInt (q : ℚ) : ℤ :=
  if 0 ≤ q then ⌊q⌋ else ⌈q⌉

/-- A raw CSV cell as the converters see it: the Python code distinguishes a
pandas missing cell (`pd.isna`), the empty string, the `"--"` marker, the
literal string `"nan"`, a numeric token, and any other text. -/
inductive Cell where
  | na      : Cell
  | blank   : Cell
  | dash    : Cell
  | nanStr  : Cell
  | num     : ℚ → Cell
  | text    : String → Cell
deriving DecidableEq

namespace Obsdl

/-- The `int(quality)`-with-fallback coercion of
`JMAObsdlDownloader._convert_quality_to_rmk` (jma_obsdl_downloader.py,
lines 329–338): `None`, `""`, `"nan"` are sent to 0 before conversion, a
token that `int()` cannot parse (non-integer or non-numeric) falls back to 0
via the caught `ValueError`. -/
def qualityToInt : Cell → ℤ
  | Cell.na => 0
  | Cell.blank => 0
  | Cell.nanStr => 0
  | Cell.dash => 0
  | Cell.num v => if v.den = 1 then v.num else 0
  | Cell.text _ => 0

/-- `JMAObsdlDownloader._convert_quality_to_rmk` (jma_obsdl_downloader.py,
lines 304–355): the phenomenon-absent override to RMK 6, then the
quality → RMK dictionary `{8:8, 5:5, 4:5, 2:5, 1:1, 0:2}` with
`dict.get` default 8. -/
def convertQualityToRmk (quality phenomenonAbsent : Cell) : ℤ :=
  let qi := qualityToInt quality
  let pi := qualityToInt phenomenonAbsent
  if pi = 1 ∧ qi = 8 then 6
  else if qi = 8 then 8
  else if qi = 5 then 5
  else if qi = 4 then 5
  else if qi = 2 then 5
  else if qi = 1 then 1
  else if qi = 0 then 2
  else 8

/-- `parse_value` inside `_convert_row_to_gwo` (jma_obsdl_downloader.py,
lines 484–492): `NaN`, `""`, `"--"` give `None`; a numeric token is scaled
and rounded with Python `round`; any other token gives `None` through the
caught `ValueError` (the token `"nan"` parses to float NaN, whose `round`
also raises `ValueError`). -/
def parseValue : Cell → ℚ → Option ℤ
  | Cell.na, _ => none
  | Cell.blank, _ => none
  | Cell.dash, _ => none
  | Cell.nanStr, _ => none
  | Cell.num v, scale => some (pyRound (v * scale))
  | Cell.text _, _ => none

/-- Wind-direction table of jma_obsdl_downloader.py (lines 48–66), identical
entry lists in jma_to_gwo_converter.py (lines 13–31). -/
def WIND_DIR_MAP : List (String × ℤ) :=
  [("北", 16), ("北北東", 1), ("北東", 2), ("東北東", 3), ("東", 4),
   ("東南東", 5), ("南東", 6), ("南南東", 7), ("南", 8), ("南南西", 9),
   ("南西", 10), ("西南西", 11), ("西", 12), ("西北西", 13), ("北西", 14),
   ("北北西", 15), ("静穏", 0)]

/-- `get_wind_dir_code` inside `_convert_row_to_gwo` (jma_obsdl_downloader.py,
lines 494–498): `NaN` or `""` give 0, otherwise `WIND_DIR_MAP.get(text, 0)`.
Non-text tokens stringify to text absent from the table, hence 0. -/
def getWindDirCode : Cell → ℤ
  | Cell.na => 0
  | Cell.blank => 0
  | Cell.text s => ((WIND_DIR_MAP.lookup s).getD 0)
  | _ => 0

/-- `mask_missing` inside `_convert_row_to_gwo` (jma_obsdl_downloader.py,
lines 575–577): value set to `None` only for RMK 0 or 1. -/
def maskMissing (v : Option ℤ) (rmk : ℤ) : Option ℤ :=
  if rmk = 0 ∨ rmk = 1 then none else v

/-- A generic value/quality field of `_convert_row_to_gwo` (pressure,
temperature, dew point, vapor pressure, humidity, wind speed): parse and
scale the value, convert the quality with no phenomenon flag, mask. -/
def simpleField (valCell qCell : Cell) (scale : ℚ) : Option ℤ × ℤ :=
  let v := parseValue valCell scale
  let rmk := convertQualityToRmk qCell Cell.na
  (maskMissing v rmk, rmk)

/-- Precipitation field (jma_obsdl_downloader.py, lines 511–516 and 586):
quality converted with the phenomenon flag; RMK 6 forces value 0. -/
def precipField (valCell phenCell qCell : Cell) : Option ℤ × ℤ :=
  let v := parseValue valCell 10
  let rmk := convertQualityToRmk qCell phenCell
  (if rmk = 6 then some 0 else maskMissing v rmk, rmk)

/-- Sunshine field (jma_obsdl_downloader.py, lines 554–558 and 584):
quality converted with the phenomenon flag; RMK 2 or 6 forces value 0. -/
def sunshineField (valCell phenCell qCell : Cell) : Option ℤ × ℤ :=
  let v := parseValue valCell 10
  let rmk := convertQualityToRmk qCell phenCell
  (if rmk = 2 ∨ rmk = 6 then some 0 else maskMissing v rmk, rmk)

/-- Solar-radiation field (jma_obsdl_downloader.py, lines 562–565 and 585):
scaled ×100, no phenomenon flag; RMK 2 forces value 0. -/
def solarField (valCell qCell : Cell) : Option ℤ × ℤ :=
  let v := parseValue valCell 100
  let rmk := convertQualityToRmk qCell Cell.na
  (if rmk = 2 then some 0 else maskMissing v rmk, rmk)

/-- Cloud-cover field (jma_obsdl_downloader.py, lines 569–572 and 611):
the value is NOT masked (it is interpolated later). -/
def cloudField (valCell qCell : Cell) : Option ℤ × ℤ :=
  (parseValue valCell 1, convertQualityToRmk qCell Cell.na)

/-- Wind-direction field (jma_obsdl_downloader.py, lines 547–550 and 607):
the code (always an integer) is masked by the direction quality RMK. -/
def windDirField (dirCell qCell : Cell) : Option ℤ × ℤ :=
  let code := getWindDirCode dirCell
  let rmk := convertQualityToRmk qCell Cell.na
  (maskMissing (some code) rmk, rmk)

/-- The per-quantity cells of one obsdl CSV row, as consumed by
`_convert_row_to_gwo` (homogeneity columns are read but unused). -/
structure ObsdlRow where
  lpVal : Cell
  lpQ : Cell
  seaVal : Cell
  seaQ : Cell
  precipVal : Cell
  precipPhen : Cell
  precipQ : Cell
  tempVal : Cell
  tempQ : Cell
  dewVal : Cell
  dewQ : Cell
  vaporVal : Cell
  vaporQ : Cell
  humVal : Cell
  humQ : Cell
  windSpeedVal : Cell
  windSpeedQ : Cell
  windDirTxt : Cell
  windDirQ : Cell
  sunVal : Cell
  sunPhen : Cell
  sunQ : Cell
  solarVal : Cell
  solarQ : Cell
  cloudVal : Cell
  cloudQ : Cell
  hourRaw : ℕ

/-- The 13 (value, RMK) pairs of the canonical 33-field GWO record built by
`_convert_row_to_gwo` (jma_obsdl_downloader.py, lines 589–623), plus the
hour.  Station identity and date fields are copied verbatim and omitted. -/
structure GwoRecord where
  hour : ℕ
  lp : Option ℤ × ℤ
  sea : Option ℤ × ℤ
  temp : Option ℤ × ℤ
  vapor : Option ℤ × ℤ
  hum : Option ℤ × ℤ
  windDir : Option ℤ × ℤ
  windSpeed : Option ℤ × ℤ
  cloud : Option ℤ × ℤ
  weather : Option ℤ × ℤ
  dew : Option ℤ × ℤ
  sun : Option ℤ × ℤ
  solar : Option ℤ × ℤ
  precip : Option ℤ × ℤ
deriving DecidableEq

/-- `JMAObsdlDownloader._convert_row_to_gwo` (jma_obsdl_downloader.py,
lines 431–625): field extraction, scaling (×10 pressure/temperature/dew
point/vapor/wind speed/sunshine/precipitation, ×100 solar, ×1 humidity and
cloud), quality→RMK conversion, missing-value masking and the explicit-zero
overrides; the GWO hour is 1–24 with `dt.hour == 0` mapped to 24; the
present-weather pair is always `(None, 2)`. -/
def convertRowToGwo (row : ObsdlRow) : GwoRecord where
  hour := if row.hourRaw > 0 then row.hourRaw else 24
  lp := simpleField row.lpVal row.lpQ 10
  sea := simpleField row.seaVal row.seaQ 10
  temp := simpleField row.tempVal row.tempQ 10
  vapor := simpleField row.vaporVal row.vaporQ 10
  hum := simpleField row.humVal row.humQ 1
  windDir := windDirField row.windDirTxt row.windDirQ
  windSpeed := simpleField row.windSpeedVal row.windSpeedQ 10
  cloud := cloudField row.cloudVal row.cloudQ
  weather := (none, 2)
  dew := simpleField row.dewVal row.dewQ 10
  sun := sunshineField row.sunVal row.sunPhen row.sunQ
  solar := solarField row.solarVal row.solarQ
  precip := precipField row.precipVal row.precipPhen row.precipQ

/-- Sample obsdl row: every quantity present with value 5 and quality 8,
phenomenon flags 0, observation hour 1. -/
def rowNormal : ObsdlRow where
  lpVal := Cell.num 5
  lpQ := Cell.num 8
  seaVal := Cell.num 5
  seaQ := Cell.num 8
  precipVal := Cell.num 5
  precipPhen := Cell.num 0
  precipQ := Cell.num 8
  tempVal := Cell.num 5
  tempQ := Cell.num 8
  dewVal := Cell.num 5
  dewQ := Cell.num 8
  vaporVal := Cell.num 5
  vaporQ := Cell.num 8
  humVal := Cell.num 5
  humQ := Cell.num 8
  windSpeedVal := Cell.num 5
  windSpeedQ := Cell.num 8
  windDirTxt := Cell.text "南"
  windDirQ := Cell.num 8
  sunVal := Cell.num 5
  sunPhen := Cell.num 0
  sunQ := Cell.num 8
  solarVal := Cell.num 5
  solarQ := Cell.num 8
  cloudVal := Cell.num 5
  cloudQ := Cell.num 8
  hourRaw := 1

/-- Variant of `rowNormal` whose temperature arrives with quality 0
(excluded from statistics) while its numeric value is still present. -/
def rowTempQuality0 : ObsdlRow :=
  { rowNormal with tempQ := Cell.num 0 }

/-- Variant of `rowNormal` whose humidity arrives with quality 0 while its
numeric value (80 %) is still present. -/
def rowHumQuality0 : ObsdlRow :=
  { rowNormal with humVal := Cell.num 80, humQ := Cell.num 0 }

/-- Variant of `rowNormal` with the precipitation phenomenon-absent flag
set (no rain) and normal quality. -/
def rowPrecipPhen : ObsdlRow :=
  { rowNormal with precipPhen := Cell.num 1 }

lemma maskMissing_of_rmk01 (v : Option ℤ) (r : ℤ) (h : r = 0 ∨ r = 1) :
    maskMissing v r = none := by
  simp [maskMissing, h]

lemma simpleField_null (a b : Cell) (s : ℚ)
    (h : (simpleField a b s).2 = 0 ∨ (simpleField a b s).2 = 1) :
    (simpleField a b s).1 = none :=
  maskMissing_of_rmk01 _ _ h

lemma windDirField_null (a b : Cell)
    (h : (windDirField a b).2 = 0 ∨ (windDirField a b).2 = 1) :
    (windDirField a b).1 = none :=
  maskMissing_of_rmk01 _ _ h

lemma sunshineField_null (a p b : Cell)
    (h : (sunshineField a p b).2 = 0 ∨ (sunshineField a p b).2 = 1) :
    (sunshineField a p b).1 = none := by
  rcases h with h | h <;>
    · show (if _ = 2 ∨ _ = 6 then _ else _) = none
      rw [if_neg (by rw [show convertQualityToRmk b p = _ from h]; norm_num)]
      exact maskMissing_of_rmk01 _ _ (by rw [show convertQualityToRmk b p = _ from h]; norm_num)

lemma sunshineField_rmk6 (a p b : Cell) (h : (sunshineField a p b).2 = 6) :
    (sunshineField a p b).1 = some 0 := by
  have h6 : convertQualityToRmk b p = 6 := h
  show (if convertQualityToRmk b p = 2 ∨ convertQualityToRmk b p = 6 then some 0
      else maskMissing (parseValue a 10) (convertQualityToRmk b p)) = some 0
  rw [h6]; norm_num

lemma sunshineField_rmk2 (a p b : Cell) (h : (sunshineField a p b).2 = 2) :
    (sunshineField a p b).1 = some 0 := by
  have h2 : convertQualityToRmk b p = 2 := h
  show (if convertQualityToRmk b p = 2 ∨ convertQualityToRmk b p = 6 then some 0
      else maskMissing (parseValue a 10) (convertQualityToRmk b p)) = some 0
  rw [h2]; norm_num

lemma solarField_null (a b : Cell)
    (h : (solarField a b).2 = 0 ∨ (solarField a b).2 = 1) :
    (solarField a b).1 = none := by
  show (if _ = 2 then _ else _) = none
  rw [if_neg (by rcases h with h | h <;> rw [show convertQualityToRmk b Cell.na = _ from h] <;> norm_num)]
  exact maskMissing_of_rmk01 _ _ h

lemma solarField_rmk2 (a b : Cell) (h : (solarField a b).2 = 2) :
    (solarField a b).1 = some 0 := by
  have h2 : convertQualityToRmk b Cell.na = 2 := h
  show (if convertQualityToRmk b Cell.na = 2 then some 0
      else maskMissing (parseValue a 100) (convertQualityToRmk b Cell.na)) = some 0
  rw [h2]; norm_num

lemma precipField_null (a p b : Cell)
    (h : (precipField a p b).2 = 0 ∨ (precipField a p b).2 = 1) :
    (precipField a p b).1 = none := by
  show (if _ = 6 then _ else _) = none
  rw [if_neg (by rcases h with h | h <;> rw [show convertQualityToRmk b p = _ from h] <;> norm_num)]
  exact maskMissing_of_rmk01 _ _ h

lemma precipField_rmk6 (a p b : Cell) (h : (precipField a p b).2 = 6) :
    (precipField a p b).1 = some 0 := by
  have h6 : convertQualityToRmk b p = 6 := h
  show (if convertQualityToRmk b p = 6 then some 0
      else maskMissing (parseValue a 10) (convertQualityToRmk b p)) = some 0
  rw [h6]; norm_num

lemma simpleField_rmk2 (a b : Cell) (s : ℚ) (h : (simpleField a b s).2 = 2) :
    (simpleField a b s).1 = parseValue a s := by
  have h2 : convertQualityToRmk b Cell.na = 2 := h
  show maskMissing (parseValue a s) (convertQualityToRmk b Cell.na) = parseValue a s
  rw [h2]
  norm_num [maskMissing]

lemma windDirField_rmk2 (a b : Cell) (h : (windDirField a b).2 = 2) :
    (windDirField a b).1 = some (getWindDirCode a) := by
  have h2 : convertQualityToRmk b Cell.na = 2 := h
  show maskMissing (some (getWindDirCode a)) (convertQualityToRmk b Cell.na) =
    some (getWindDirCode a)
  rw [h2]
  norm_num [maskMissing]

/-- C2, counterexample: the numeric quality normalizer maps the parseable but
unrecognized quality token 3 to remark 8 (normal), not remark 2, through the
`rmk_map.get(quality, 8)` dictionary default — refuting the claim that any
unrecognized quality token yields remark 2 and never remark 8. -/
theorem C2_counterexample :
    convertQualityToRmk (Cell.num 3) Cell.na = 8 ∧
      convertQualityToRmk (Cell.num 3) Cell.na ≠ 2 := by
  constructor <;> norm_num [convertQualityToRmk, qualityToInt]

/-- C2 (amended): quality values 8, 5, 4, 2, 1, 0 map to remarks
8, 5, 5, 5, 1, 2; a blank, `None`, `"nan"` or unparseable quality token is
coerced to 0 and yields remark 2; but a parseable integer quality outside
the recognized set falls back to remark 8 via the dictionary default. -/
theorem C2_amended :
    (convertQualityToRmk (Cell.num 8) Cell.na = 8) ∧
    (convertQualityToRmk (Cell.num 5) Cell.na = 5) ∧
    (convertQualityToRmk (Cell.num 4) Cell.na = 5) ∧
    (convertQualityToRmk (Cell.num 2) Cell.na = 5) ∧
    (convertQualityToRmk (Cell.num 1) Cell.na = 1) ∧
    (convertQualityToRmk (Cell.num 0) Cell.na = 2) ∧
    (convertQualityToRmk Cell.na Cell.na = 2) ∧
    (convertQualityToRmk Cell.blank Cell.na = 2) ∧
    (convertQualityToRmk Cell.nanStr Cell.na = 2) ∧
    (∀ s : String, convertQualityToRmk (Cell.text s) Cell.na = 2) ∧
    (∀ v : ℚ, v.den ≠ 1 → convertQualityToRmk (Cell.num v) Cell.na = 2) ∧
    (∀ n : ℤ, n ≠ 8 → n ≠ 5 → n ≠ 4 → n ≠ 2 → n ≠ 1 → n ≠ 0 →
      convertQualityToRmk (Cell.num (n : ℚ)) Cell.na = 8) := by
  refine ⟨?_, ?_, ?_, ?_, ?_, ?_, ?_, ?_, ?_, ?_, ?_, ?_⟩
  case _ => norm_num [convertQualityToRmk, qualityToInt]
  case _ => norm_num [convertQualityToRmk, qualityToInt]
  case _ => norm_num [convertQualityToRmk, qualityToInt]
  case _ => norm_num [convertQualityToRmk, qualityToInt]
  case _ => norm_num [convertQualityToRmk, qualityToInt]
  case _ => norm_num [convertQualityToRmk, qualityToInt]
  case _ => norm_num [convertQualityToRmk, qualityToInt]
  case _ => norm_num [convertQualityToRmk, qualityToInt]
  case _ => norm_num [convertQualityToRmk, qualityToInt]
  case _ => intro s; norm_num [convertQualityToRmk, qualityToInt]
  case _ => intro v hv; simp [convertQualityToRmk, qualityToInt, hv]
  case _ =>
    intro n h8 h5 h4 h2 h1 h0
    simp [convertQualityToRmk, qualityToInt, Rat.den_intCast, Rat.num_intCast,
      h8, h5, h4, h2, h1, h0]

/-- C2 witness: the amended theorem applied at the concrete unmapped integer
quality 7. -/
theorem C2_amended_witness :
    convertQualityToRmk (Cell.num ((7 : ℤ) : ℚ)) Cell.na = 8 :=
  C2_amended.2.2.2.2.2.2.2.2.2.2.2 7 (by norm_num) (by norm_num) (by norm_num)
    (by norm_num) (by norm_num) (by norm_num)

/-- C3: the numeric quality normalizer sends phenomenon_absent = 1 with
quality 8 to remark 6 and (in the row encoder) forces the value to 0;
phenomenon_absent = 0 with quality 8 gives remark 8 with the scaled value
preserved; quality 1 gives remark 1 with a null value regardless of the
phenomenon flag. -/
theorem C3_numeric_normalizer :
    (convertQualityToRmk (Cell.num 8) (Cell.num 1) = 6) ∧
    (convertQualityToRmk (Cell.num 8) (Cell.num 0) = 8) ∧
    (∀ p : Cell, convertQualityToRmk (Cell.num 1) p = 1) ∧
    (∀ vc : Cell, precipField vc (Cell.num 1) (Cell.num 8) = (some 0, 6)) ∧
    (∀ v : ℚ, precipField (Cell.num v) (Cell.num 0) (Cell.num 8) =
      (some (pyRound (v * 10)), 8)) ∧
    (∀ vc pc : Cell, precipField vc pc (Cell.num 1) = (none, 1)) ∧
    (∀ vc : Cell, sunshineField vc (Cell.num 1) (Cell.num 8) = (some 0, 6)) := by
  refine ⟨?_, ?_, ?_, ?_, ?_, ?_, ?_⟩
  case _ => norm_num [convertQualityToRmk, qualityToInt]
  case _ => norm_num [convertQualityToRmk, qualityToInt]
  case _ => intro p; norm_num [convertQualityToRmk, qualityToInt]
  case _ => intro vc; norm_num [precipField, convertQualityToRmk, qualityToInt]
  case _ =>
    intro v
    norm_num [precipField, convertQualityToRmk, qualityToInt, maskMissing, parseValue]
  case _ =>
    intro vc pc
    norm_num [precipField, convertQualityToRmk, qualityToInt, maskMissing]
  case _ => intro vc; norm_num [sunshineField, convertQualityToRmk, qualityToInt]

/-- C1, counterexample: a full converted record in which the temperature
remark is 2 (quality 0, statistically excluded) while the temperature value
is the parsed 50 (5.0 °C × 10), not null — refuting the invariant that a
quantity with remark 1 or 2 always has a null value. -/
theorem C1_counterexample :
    (convertRowToGwo rowTempQuality0).temp.2 = 2 ∧
      (convertRowToGwo rowTempQuality0).temp.1 = some 50 := by
  constructor <;>
    norm_num [convertRowToGwo, rowTempQuality0, rowNormal, simpleField,
      parseValue, convertQualityToRmk, qualityToInt, maskMissing, pyRound]

/-- C1 (amended): in every record emitted by the obsdl converter, a quantity
whose remark is 0 or 1 has a null value for every field except cloud cover
(which is never masked), a quantity with remark 6 (precipitation, sunshine)
has an explicit zero value, and present-weather is always `(null, 2)`;
remark 2 does not force a null value. -/
theorem C1_amended (row : ObsdlRow) :
    (((convertRowToGwo row).lp.2 = 0 ∨ (convertRowToGwo row).lp.2 = 1) →
      (convertRowToGwo row).lp.1 = none) ∧
    (((convertRowToGwo row).sea.2 = 0 ∨ (convertRowToGwo row).sea.2 = 1) →
      (convertRowToGwo row).sea.1 = none) ∧
    (((convertRowToGwo row).temp.2 = 0 ∨ (convertRowToGwo row).temp.2 = 1) →
      (convertRowToGwo row).temp.1 = none) ∧
    (((convertRowToGwo row).vapor.2 = 0 ∨ (convertRowToGwo row).vapor.2 = 1) →
      (convertRowToGwo row).vapor.1 = none) ∧
    (((convertRowToGwo row).hum.2 = 0 ∨ (convertRowToGwo row).hum.2 = 1) →
      (convertRowToGwo row).hum.1 = none) ∧
    (((convertRowToGwo row).windDir.2 = 0 ∨ (convertRowToGwo row).windDir.2 = 1) →
      (convertRowToGwo row).windDir.1 = none) ∧
    (((convertRowToGwo row).windSpeed.2 = 0 ∨ (convertRowToGwo row).windSpeed.2 = 1) →
      (convertRowToGwo row).windSpeed.1 = none) ∧
    (((convertRowToGwo row).dew.2 = 0 ∨ (convertRowToGwo row).dew.2 = 1) →
      (convertRowToGwo row).dew.1 = none) ∧
    (((convertRowToGwo row).sun.2 = 0 ∨ (convertRowToGwo row).sun.2 = 1) →
      (convertRowToGwo row).sun.1 = none) ∧
    (((convertRowToGwo row).solar.2 = 0 ∨ (convertRowToGwo row).solar.2 = 1) →
      (convertRowToGwo row).solar.1 = none) ∧
    (((convertRowToGwo row).precip.2 = 0 ∨ (convertRowToGwo row).precip.2 = 1) →
      (convertRowToGwo row).precip.1 = none) ∧
    ((convertRowToGwo row).precip.2 = 6 → (convertRowToGwo row).precip.1 = some 0) ∧
    ((convertRowToGwo row).sun.2 = 6 → (convertRowToGwo row).sun.1 = some 0) ∧
    ((convertRowToGwo row).weather = (none, 2)) :=
  ⟨fun h => simpleField_null _ _ _ h,
   fun h => simpleField_null _ _ _ h,
   fun h => simpleField_null _ _ _ h,
   fun h => simpleField_null _ _ _ h,
   fun h => simpleField_null _ _ _ h,
   fun h => windDirField_null _ _ h,
   fun h => simpleField_null _ _ _ h,
   fun h => simpleField_null _ _ _ h,
   fun h => sunshineField_null _ _ _ h,
   fun h => solarField_null _ _ h,
   fun h => precipField_null _ _ _ h,
   fun h => precipField_rmk6 _ _ _ h,
   fun h => sunshineField_rmk6 _ _ _ h,
   rfl⟩

/-- C1 witness: the amended theorem applied at a concrete row with the
precipitation phenomenon-absent flag set, discharging the remark-6
hypothesis there. -/
theorem C1_amended_witness :
    (convertRowToGwo rowPrecipPhen).precip.1 = some 0 :=
  (C1_amended rowPrecipPhen).2.2.2.2.2.2.2.2.2.2.2.1
    (by norm_num [convertRowToGwo, rowPrecipPhen, rowNormal, precipField,
      convertQualityToRmk, qualityToInt])

/-- C4, counterexample: a converted record in which the humidity remark is 2
yet the humidity value is the parsed 80, not null — refuting the clause that
every field other than sunshine/solar/precipitation whose remark is 1 or 2
is emitted as null. -/
theorem C4_counterexample :
    (convertRowToGwo rowHumQuality0).hum.2 = 2 ∧
      (convertRowToGwo rowHumQuality0).hum.1 = some 80 := by
  constructor <;>
    norm_num [convertRowToGwo, rowHumQuality0, rowNormal, simpleField,
      parseValue, convertQualityToRmk, qualityToInt, maskMissing, pyRound]

/-- C4 (amended): the explicit-zero policy of the obsdl row encoder —
sunshine with remark 2 or 6 is emitted as 0, solar with remark 2 as 0,
precipitation with remark 6 as 0; every other field except cloud cover is
emitted as null when its remark is 0 or 1, while a remark-2 field retains
its parsed value; cloud cover is emitted unmasked regardless of its remark
(so a quality-1 cloud cell keeps its parsed value alongside RMK 1). -/
theorem C4_amended (row : ObsdlRow) :
    (∀ v : ℚ, row.humVal = Cell.num v → row.humQ = Cell.num 0 →
      (convertRowToGwo row).hum = (some (pyRound (v * 1)), 2)) ∧
    ((convertRowToGwo row).sun.2 = 2 → (convertRowToGwo row).sun.1 = some 0) ∧
    ((convertRowToGwo row).sun.2 = 6 → (convertRowToGwo row).sun.1 = some 0) ∧
    ((convertRowToGwo row).solar.2 = 2 → (convertRowToGwo row).solar.1 = some 0) ∧
    ((convertRowToGwo row).precip.2 = 6 → (convertRowToGwo row).precip.1 = some 0) ∧
    (((convertRowToGwo row).lp.2 = 0 ∨ (convertRowToGwo row).lp.2 = 1) →
      (convertRowToGwo row).lp.1 = none) ∧
    (((convertRowToGwo row).sea.2 = 0 ∨ (convertRowToGwo row).sea.2 = 1) →
      (convertRowToGwo row).sea.1 = none) ∧
    (((convertRowToGwo row).temp.2 = 0 ∨ (convertRowToGwo row).temp.2 = 1) →
      (convertRowToGwo row).temp.1 = none) ∧
    (((convertRowToGwo row).vapor.2 = 0 ∨ (convertRowToGwo row).vapor.2 = 1) →
      (convertRowToGwo row).vapor.1 = none) ∧
    (((convertRowToGwo row).hum.2 = 0 ∨ (convertRowToGwo row).hum.2 = 1) →
      (convertRowToGwo row).hum.1 = none) ∧
    (((convertRowToGwo row).windDir.2 = 0 ∨ (convertRowToGwo row).windDir.2 = 1) →
      (convertRowToGwo row).windDir.1 = none) ∧
    (((convertRowToGwo row).windSpeed.2 = 0 ∨ (convertRowToGwo row).windSpeed.2 = 1) →
      (convertRowToGwo row).windSpeed.1 = none) ∧
    (((convertRowToGwo row).dew.2 = 0 ∨ (convertRowToGwo row).dew.2 = 1) →
      (convertRowToGwo row).dew.1 = none) ∧
    ((convertRowToGwo row).lp.2 = 2 →
      (convertRowToGwo row).lp.1 = parseValue row.lpVal 10) ∧
    ((convertRowToGwo row).sea.2 = 2 →
      (convertRowToGwo row).sea.1 = parseValue row.seaVal 10) ∧
    ((convertRowToGwo row).temp.2 = 2 →
      (convertRowToGwo row).temp.1 = parseValue row.tempVal 10) ∧
    ((convertRowToGwo row).vapor.2 = 2 →
      (convertRowToGwo row).vapor.1 = parseValue row.vaporVal 10) ∧
    ((convertRowToGwo row).hum.2 = 2 →
      (convertRowToGwo row).hum.1 = parseValue row.humVal 1) ∧
    ((convertRowToGwo row).windDir.2 = 2 →
      (convertRowToGwo row).windDir.1 = some (getWindDirCode row.windDirTxt)) ∧
    ((convertRowToGwo row).windSpeed.2 = 2 →
      (convertRowToGwo row).windSpeed.1 = parseValue row.windSpeedVal 10) ∧
    ((convertRowToGwo row).dew.2 = 2 →
      (convertRowToGwo row).dew.1 = parseValue row.dewVal 10) ∧
    ((convertRowToGwo row).cloud.1 = parseValue row.cloudVal 1) := by
  refine ⟨?_,
    fun h => sunshineField_rmk2 _ _ _ h,
    fun h => sunshineField_rmk6 _ _ _ h,
    fun h => solarField_rmk2 _ _ h,
    fun h => precipField_rmk6 _ _ _ h,
    fun h => simpleField_null _ _ _ h,
    fun h => simpleField_null _ _ _ h,
    fun h => simpleField_null _ _ _ h,
    fun h => simpleField_null _ _ _ h,
    fun h => simpleField_null _ _ _ h,
    fun h => windDirField_null _ _ h,
    fun h => simpleField_null _ _ _ h,
    fun h => simpleField_null _ _ _ h,
    fun h => simpleField_rmk2 _ _ _ h,
    fun h => simpleField_rmk2 _ _ _ h,
    fun h => simpleField_rmk2 _ _ _ h,
    fun h => simpleField_rmk2 _ _ _ h,
    fun h => simpleField_rmk2 _ _ _ h,
    fun h => windDirField_rmk2 _ _ h,
    fun h => simpleField_rmk2 _ _ _ h,
    fun h => simpleField_rmk2 _ _ _ h,
    rfl⟩
  intro v hv hq
  show simpleField row.humVal row.humQ 1 = _
  rw [hv, hq]
  norm_num [simpleField, parseValue, convertQualityToRmk, qualityToInt, maskMissing]

/-- C4 witness: the amended theorem applied at the concrete
quality-0-humidity row, discharging its hypotheses there. -/
theorem C4_amended_witness :
    (convertRowToGwo rowHumQuality0).hum = (some (pyRound ((80 : ℚ) * 1)), 2) :=
  (C4_amended rowHumQuality0).1 80 rfl rfl

/-! ### Linear interpolation of a pandas Series

`Series.interpolate(method="linear")` treats the values as equally spaced:
an interior `NaN` run is filled linearly between the nearest valid values on
both sides, `NaN`s after the last valid value are filled with that value
(forward direction), and leading `NaN`s are left unfilled. -/

/-- Position and value of the first valid entry of the list. -/
def firstValid : List (Option ℚ) → Option (ℕ × ℚ)
  | [] => none
  | some v :: _ => some (0, v)
  | none :: t => (firstValid t).map (fun p => (p.1 + 1, p.2))

/-- Position and value of the last valid entry at or before position `i`. -/
def prevValid (l : List (Option ℚ)) : ℕ → Option (ℕ × ℚ)
  | 0 =>
    match l[0]? with
    | some (some v) => some (0, v)
    | _ => none
  | j + 1 =>
    match l[j + 1]? with
    | some (some v) => some (j + 1, v)
    | _ => prevValid l j

/-- Position and value of the first valid entry strictly after position `i`. -/
def nextValid (l : List (Option ℚ)) (i : ℕ) : Option (ℕ × ℚ) :=
  (firstValid (l.drop (i + 1))).map (fun p => (i + 1 + p.1, p.2))

/-- The value `Series.interpolate(method="linear")` leaves at position `i`:
a valid entry is kept; a gap entry is linearly interpolated between its
neighbouring valid entries, forward-filled after the last valid entry, and
left missing before the first valid entry. -/
def interpAt (l : List (Option ℚ)) (i : ℕ) : Option ℚ :=
  match l[i]? with
  | some (some v) => some v
  | _ =>
    match prevValid l i, nextValid l i with
    | some (j, a), some (k, b) =>
        some (a + (b - a) * ((i : ℚ) - (j : ℚ)) / ((k : ℚ) - (j : ℚ)))
    | some (_, a), none => some a
    | none, _ => none

/-- `Series.interpolate(method="linear")` over a whole column. -/
def interpolateLinear (l : List (Option ℚ)) : List (Option ℚ) :=
  (List.range l.length).map (interpAt l)

/-- The columns of a converted GWO row touched by
`_apply_cloud_interpolation`: hour (column 6), cloud value (column 21, as
parsed — possibly `None`) and cloud RMK (column 22).  All other columns
pass through the function unchanged. -/
structure CloudRow where
  hour : ℕ
  cloud : Option ℤ
  cloudRmk : ℤ
deriving DecidableEq

/-- A cloud row after `_apply_cloud_interpolation` and the `Int64` cast:
the cloud value is always an integer. -/
structure CloudRowOut where
  hour : ℕ
  cloud : ℤ
  cloudRmk : ℤ
deriving DecidableEq

/-- The cloud observation hours of `_apply_cloud_interpolation`
(jma_obsdl_downloader.py, line 655). -/
def obsHours : List ℕ := [3, 6, 9, 12, 15, 18, 21]

/-- `JMAObsdlDownloader._apply_cloud_interpolation` (jma_obsdl_downloader.py,
lines 627–672): the cloud column is linearly interpolated, rounded
(numpy half-to-even), clipped to [0, 10], residual `NaN`s set to 0 and cast
to integer; the cloud RMK is rewritten to 2 at every row whose hour — with
24 replaced by 0 — is not an observation hour. -/
def applyCloudInterpolation (rows : List CloudRow) : List CloudRowOut :=
  let vals : List (Option ℚ) := rows.map (fun r => r.cloud.map (fun z => (z : ℚ)))
  List.zipWith
    (fun (r : CloudRow) (o : Option ℚ) =>
      { hour := r.hour
        cloud :=
          match o with
          | some v => min 10 (max 0 (pyRound v))
          | none => 0
        cloudRmk :=
          if (if r.hour = 24 then 0 else r.hour) ∈ obsHours then r.cloudRmk else 2 })
    rows (interpolateLinear vals)

lemma interpolateLinear_length (l : List (Option ℚ)) :
    (interpolateLinear l).length = l.length := by
  simp [interpolateLinear]

lemma zipWith_map_proj {α β γ δ : Type} (f : α → β → γ) (g : γ → δ) (p : α → δ)
    (hfg : ∀ a b, g (f a b) = p a) :
    ∀ (as : List α) (bs : List β), as.length = bs.length →
      (List.zipWith f as bs).map g = as.map p
  | [], _, _ => by simp
  | _ :: as, [], h => by simp at h
  | a :: as, b :: bs, h => by
    simp only [List.zipWith_cons_cons, List.map_cons, hfg]
    rw [zipWith_map_proj f g p hfg as bs (by simpa using h)]

lemma mem_zipWith_exists {α β γ : Type} (f : α → β → γ) :
    ∀ (as : List α) (bs : List β) (x : γ), x ∈ List.zipWith f as bs → ∃ a b, x = f a b
  | [], _, x, h => by simp at h
  | _ :: _, [], x, h => by simp at h
  | a :: as, b :: bs, x, h => by
    rcases List.mem_cons.mp h with h | h
    · exact ⟨a, b, h⟩
    · exact mem_zipWith_exists f as bs x h

/-- C5, counterexample: a single converted row at hour 24 with an observed
cloud value 5 and remark 8 leaves the interpolator with its remark rewritten
to 2 — because the code first replaces hour 24 by 0 and 0 is not in the
observation-hour set — refuting the claim that the remark is rewritten only
at hours outside {3,6,9,12,15,18,21,24} and that the hour-24 remark is left
untouched. -/
theorem C5_counterexample :
    applyCloudInterpolation [⟨24, some 5, 8⟩] = [⟨24, 5, 2⟩] := by
  norm_num [applyCloudInterpolation, interpolateLinear, interpAt, prevValid,
    nextValid, firstValid, obsHours, pyRound, List.range_succ]

/-- C5 (amended): the cloud interpolator linearly interpolates between
observed anchors (8 at hour 3 and 2 at hour 6 give 6 at hour 4 and 4 at
hour 5), rounds, clips every emitted value into [0, 10], defaults residual
unresolved points to 0, and rewrites the remark code to 2 exactly at rows
whose hour — with 24 first replaced by 0 — lies outside
{3,6,9,12,15,18,21}; hence hour 24 is also rewritten to 2, and hours in the
set keep their pre-interpolation remark. -/
theorem C5_amended :
    (applyCloudInterpolation
        [⟨3, some 8, 8⟩, ⟨4, none, 8⟩, ⟨5, none, 8⟩, ⟨6, some 2, 8⟩] =
      [⟨3, 8, 8⟩, ⟨4, 6, 2⟩, ⟨5, 4, 2⟩, ⟨6, 2, 8⟩]) ∧
    (∀ rows : List CloudRow,
      (applyCloudInterpolation rows).map CloudRowOut.cloudRmk =
        rows.map (fun r =>
          if (if r.hour = 24 then 0 else r.hour) ∈ obsHours then r.cloudRmk else 2)) ∧
    (∀ (rows : List CloudRow) (x : CloudRowOut),
      x ∈ applyCloudInterpolation rows → 0 ≤ x.cloud ∧ x.cloud ≤ 10) := by
  refine ⟨?_, ?_, ?_⟩
  · norm_num [applyCloudInterpolation, interpolateLinear, interpAt, prevValid,
      nextValid, firstValid, obsHours, pyRound, List.range_succ]
  · intro rows
    unfold applyCloudInterpolation
    refine zipWith_map_proj _ CloudRowOut.cloudRmk
      (fun r => if (if r.hour = 24 then 0 else r.hour) ∈ obsHours then r.cloudRmk else 2)
      ?_ rows _ ?_
    · exact fun a b => rfl
    · simp [interpolateLinear_length]
  · intro rows x hx
    obtain ⟨r, o, rfl⟩ := mem_zipWith_exists _ rows _ x hx
    cases o with
    | none => exact ⟨le_refl 0, by norm_num⟩
    | some v => exact ⟨le_min (by norm_num) (le_max_left 0 _), min_le_left _ _⟩

/-- C5 witness: the amended theorem's clipping clause applied to a concrete
row whose raw cloud value 12 exceeds the valid range. -/
theorem C5_amended_witness :
    (0 : ℤ) ≤ (CloudRowOut.mk 3 10 8).cloud ∧ (CloudRowOut.mk 3 10 8).cloud ≤ 10 :=
  C5_amended.2.2 [⟨3, some 12, 8⟩] ⟨3, 10, 8⟩
    (by norm_num [applyCloudInterpolation, interpolateLinear, interpAt, prevValid,
      nextValid, firstValid, obsHours, pyRound, List.range_succ])

end Obsdl

namespace Weather

/-- A raw etrn HTML-table cell as seen by `parse_value_and_quality`
(jma_weather_downloader.py, lines 200–246): pandas `NaN`, empty string, the
missing markers `"///"` and `"×"`, the no-phenomenon marker `"--"`, a plain
numeric token, a numeric token carrying one of the quality symbols
`)`, `]`, `#`, a symbol whose remainder does not parse, or other
unparseable text. -/
inductive JCell where
  | na      : JCell
  | blank   : JCell
  | slashes : JCell
  | cross   : JCell
  | dash    : JCell
  | num     : ℚ → JCell
  | numSym  : ℚ → JCell
  | badSym  : JCell
  | text    : String → JCell
deriving DecidableEq

/-- `parse_value_and_quality` (jma_weather_downloader.py, lines 200–246):
`NaN`/`""` give `(None, 2)`; `"///"`/`"×"` give `(None, 1)`; `"--"` gives
`(0, 2)`; a `)`, `]` or `#` symbol downgrades quality to 5; an unparseable
remainder gives `(None, 1)`. -/
def parseValueAndQuality : JCell → Option ℚ × ℤ
  | JCell.na => (none, 2)
  | JCell.blank => (none, 2)
  | JCell.slashes => (none, 1)
  | JCell.cross => (none, 1)
  | JCell.dash => (some 0, 2)
  | JCell.num v => (some v, 8)
  | JCell.numSym v => (some v, 5)
  | JCell.badSym => (none, 1)
  | JCell.text _ => (none, 1)

/-- `to_int_scaled_with_quality` (jma_weather_downloader.py, lines 252–259):
scale the parsed value and round with Python `round`. -/
def toIntScaledWithQuality (c : JCell) (scale : ℚ) : Option ℤ × ℤ :=
  let p := parseValueAndQuality c
  match p.1 with
  | some x => (some (pyRound (x * scale)), p.2)
  | none => (none, p.2)

/-- Wind-direction table of jma_weather_downloader.py (lines 143–162):
the 16 compass points, `静穏` (calm) and an additional `Calm` entry, both
mapped to 0. -/
def WIND_DIR_MAP : List (String × ℤ) :=
  [("北", 16), ("北北東", 1), ("北東", 2), ("東北東", 3), ("東", 4),
   ("東南東", 5), ("南東", 6), ("南南東", 7), ("南", 8), ("南南西", 9),
   ("南西", 10), ("西南西", 11), ("西", 12), ("西北西", 13), ("北西", 14),
   ("北北西", 15), ("静穏", 0), ("Calm", 0)]

/-- A wind-direction cell after the quality-symbol strip of
`wind_dir_code_with_quality`: `NaN`, empty, or a stripped token with the
flag recording whether a `)`, `]` or `#` symbol was removed. -/
inductive WCell where
  | na   : WCell
  | blank : WCell
  | tok  : String → Bool → WCell
deriving DecidableEq

/-- `wind_dir_code_with_quality` (jma_weather_downloader.py, lines 262–281):
`NaN`/`""` give `(0, 2)`; a symbol downgrades quality to 5; `"--"` or an
empty remainder give `(0, 2)`; otherwise the table code with the quality,
except that code 0 (unmapped text or calm) is paired with remark 2. -/
def windDirCodeWithQuality : WCell → ℤ × ℤ
  | WCell.na => (0, 2)
  | WCell.blank => (0, 2)
  | WCell.tok s sym =>
    let q : ℤ := if sym then 5 else 8
    if s = "--" ∨ s = "" then (0, 2)
    else
      let code := (WIND_DIR_MAP.lookup s).getD 0
      (code, if code > 0 then q else 2)

end Weather

namespace JmaToGwo

/-- A raw etrn CSV cell as seen by `convert_value` (jma_to_gwo_converter.py,
lines 78–102): pandas `NaN`, blank, `"--"` (which contains the `--` missing
marker), text containing one of the other missing markers `×`, `/`, `#`, a
numeric token, or other unparseable text. -/
inductive ECell where
  | na         : ECell
  | blank      : ECell
  | dash       : ECell
  | withMarker : ECell
  | num        : ℚ → ECell
  | text       : String → ECell
deriving DecidableEq

/-- `convert_value` (jma_to_gwo_converter.py, lines 78–102): `NaN`, a token
containing a missing marker, and the empty string give `None`; a numeric
token parses; other text gives `None` via the caught `ValueError`. -/
def convertValue : ECell → Option ℚ
  | ECell.na => none
  | ECell.blank => none
  | ECell.dash => none
  | ECell.withMarker => none
  | ECell.num v => some v
  | ECell.text _ => none

/-- The unit conversion of `jma_to_gwo_format` (jma_to_gwo_converter.py,
lines 177–195): `int(value * factor)` — Python `int()` truncates toward
zero. -/
def scaleGwo (v : Option ℚ) (factor : ℚ) : Option ℤ :=
  v.map (fun x => truncInt (x * factor))

/-- `get_rmk` inside `jma_to_gwo_format` (jma_to_gwo_converter.py,
lines 199–202): `None` gives RMK 1, anything else RMK 8. -/
def getRmk (v : Option ℤ) : ℤ :=
  if v = none then 1 else 8

/-- Wind-direction table of jma_to_gwo_converter.py (lines 13–31): the 16
compass points plus `静穏` (calm) mapped to 0 — 17 entries. -/
def WIND_DIR_MAP : List (String × ℤ) :=
  [("北", 16), ("北北東", 1), ("北東", 2), ("東北東", 3), ("東", 4),
   ("東南東", 5), ("南東", 6), ("南南東", 7), ("南", 8), ("南南西", 9),
   ("南西", 10), ("西南西", 11), ("西", 12), ("西北西", 13), ("北西", 14),
   ("北北西", 15), ("静穏", 0)]

/-- `convert_wind_direction` (jma_to_gwo_converter.py, lines 69–75):
`NaN`, `""` and `"--"` give 0; otherwise `WIND_DIR_MAP.get(text, 0)`. -/
def convertWindDirection : ECell → ℤ
  | ECell.na => 0
  | ECell.blank => 0
  | ECell.dash => 0
  | ECell.withMarker => 0
  | ECell.num _ => 0
  | ECell.text s => (WIND_DIR_MAP.lookup s).getD 0

/-- The wind-direction (value, RMK) pair emitted by `jma_to_gwo_format`
(jma_to_gwo_converter.py, lines 223–224): the code is always an integer,
so `get_rmk` always returns 8. -/
def windPair (c : ECell) : ℤ × ℤ :=
  let code := convertWindDirection c
  (code, getRmk (some code))

end JmaToGwo

/-- C6, counterexample: the etrn file-converter path scales 0.75 by 10 with
`int()`, producing 7, while rounding to nearest (Python `round`, used by the
other conversion paths) gives 8 — refuting the claim that every conversion
path rounds and never truncates toward zero. -/
theorem C6_counterexample :
    JmaToGwo.scaleGwo (JmaToGwo.convertValue (JmaToGwo.ECell.num (3 / 4))) 10 = some 7 ∧
      pyRound ((3 / 4) * 10) = 8 ∧
      JmaToGwo.scaleGwo (JmaToGwo.convertValue (JmaToGwo.ECell.num (3 / 4))) 10 ≠
        some (pyRound ((3 / 4) * 10)) := by
  refine ⟨?_, ?_, ?_⟩
  · norm_num [JmaToGwo.scaleGwo, JmaToGwo.convertValue, truncInt]
  · unfold pyRound; norm_num
  · norm_num [JmaToGwo.scaleGwo, JmaToGwo.convertValue, truncInt, pyRound]

/-- C6 (amended): the obsdl `parse_value` and the symbol-based downloader's
`to_int_scaled_with_quality` both scale by multiplying and rounding with
Python `round` — round half to even, hence within 1/2 of the exact product
and landing on an even integer at ties — but the etrn file converter
`jma_to_gwo_format` truncates toward zero (`int()`), so the
rounding-not-truncation contract does not hold on that path. -/
theorem C6_amended :
    (∀ v s : ℚ, Obsdl.parseValue (Cell.num v) s = some (pyRound (v * s))) ∧
    (∀ v s : ℚ,
      (Weather.toIntScaledWithQuality (Weather.JCell.num v) s).1 = some (pyRound (v * s))) ∧
    (∀ q : ℚ, |(pyRound q : ℚ) - q| ≤ 1 / 2) ∧
    (∀ q : ℚ, q - ⌊q⌋ = 1 / 2 → (2 : ℤ) ∣ pyRound q) ∧
    (∀ v : ℚ, 0 ≤ v →
      JmaToGwo.scaleGwo (JmaToGwo.convertValue (JmaToGwo.ECell.num v)) 10 = some ⌊v * 10⌋) := by
  refine ⟨fun v s => rfl, fun v s => rfl, ?_, ?_, ?_⟩
  · intro q
    have h0 : (⌊q⌋ : ℚ) ≤ q := Int.floor_le q
    have h1 : q < ⌊q⌋ + 1 := Int.lt_floor_add_one q
    simp only [pyRound]
    split_ifs <;> (rw [abs_le]; constructor <;> push_cast <;> linarith)
  · intro q hq
    simp only [pyRound]
    rw [hq]
    norm_num
    split_ifs with h
    · exact h
    · omega
  · intro v hv
    have hnn : 0 ≤ v * 10 := mul_nonneg hv (by norm_num)
    show some (truncInt (v * 10)) = some ⌊v * 10⌋
    unfold truncInt
    rw [if_pos hnn]

/-- C6 witness: the amended theorem's tie clause applied at the concrete
half-integer 5/2, and its truncation clause applied at 3/4. -/
theorem C6_amended_witness :
    (2 : ℤ) ∣ pyRound (5 / 2) ∧
      JmaToGwo.scaleGwo (JmaToGwo.convertValue (JmaToGwo.ECell.num (3 / 4))) 10 =
        some ⌊(3 / 4 : ℚ) * 10⌋ :=
  ⟨C6_amended.2.2.2.1 (5 / 2) (by norm_num),
   C6_amended.2.2.2.2 (3 / 4) (by norm_num)⟩

/-- C7, counterexample: the etrn file converter pairs the fallback
wind-direction code 0 obtained from unmapped text with remark 8 — its
remark depends only on the code not being `None`, and the code is always an
integer — refuting the claim that unmapped direction text is emitted as
code 0 paired with remark 2, not remark 8. -/
theorem C7_counterexample :
    JmaToGwo.windPair (JmaToGwo.ECell.text "ENE") = (0, 8) ∧
      ((0 : ℤ), (8 : ℤ)) ≠ ((0 : ℤ), (2 : ℤ)) := by
  exact ⟨by decide, by decide⟩

/-- C7 (amended): the 17-entry compass table is a bijection onto {0,…,16}
(labels pairwise distinct, values a permutation of 0–16), and the
symbol-based downloader's encoder emits code 0 paired with remark 2 for
every direction text absent from its table; the etrn file converter,
however, pairs the fallback code 0 with remark 8. -/
theorem C7_amended :
    (JmaToGwo.WIND_DIR_MAP.length = 17) ∧
    (JmaToGwo.WIND_DIR_MAP.map Prod.fst).Nodup ∧
    ((JmaToGwo.WIND_DIR_MAP.map Prod.snd).Perm ((List.range 17).map (fun n => (n : ℤ)))) ∧
    (∀ (s : String) (b : Bool), Weather.WIND_DIR_MAP.lookup s = none →
      Weather.windDirCodeWithQuality (Weather.WCell.tok s b) = (0, 2)) := by
  refine ⟨by decide, by decide, by decide, ?_⟩
  intro s b hs
  by_cases hdash : s = "--" ∨ s = ""
  · simp [Weather.windDirCodeWithQuality, hdash]
  · simp [Weather.windDirCodeWithQuality, hdash, hs]

/-- C7 witness: the amended theorem's unmapped-text clause applied at the
concrete English label "NNE", absent from the downloader's table. -/
theorem C7_amended_witness :
    Weather.windDirCodeWithQuality (Weather.WCell.tok "NNE" false) = (0, 2) :=
  C7_amended.2.2.2 "NNE" false (by decide)

namespace Met

/-! ### The time-series reconstructor of mod_class_met.py -/

/-- `fillna(method='ffill')`: each missing entry takes the last preceding
valid value; leading missing entries stay missing. -/
def ffillAux : Option ℚ → List (Option ℚ) → List (Option ℚ)
  | _, [] => []
  | acc, none :: t => acc :: ffillAux acc t
  | _, some v :: t => some v :: ffillAux (some v) t

/-- Forward fill of a column, starting with no carried value. -/
def ffillList (l : List (Option ℚ)) : List (Option ℚ) :=
  ffillAux none l

/-- `cols_ffill` of `Met_GWO.__create_df.df_interp` (mod_class_met.py,
line 261): station-identity and RMK columns are forward-filled on the
hourly reindex; every other (continuous physical) column is
time-interpolated. -/
def colsFfill : List String :=
  ["KanID", "Kname", "KanID_1", "lhpaRMK", "shpaRMK", "kionRMK", "stemRMK",
   "rhumRMK", "mukiRMK", "spedRMK", "clodRMK", "tnkiRMK", "humdRMK",
   "lghtRMK", "slhtRMK", "kousRMK"]

/-- `df_interp.reindex(new_index)` onto the contiguous hourly timeline
starting at `t0` (hours as integers): a grid position takes the value
recorded at that timestamp, missing where no record exists. -/
def reindexHourly (t0 : ℤ) (n : ℕ) (series : List (ℤ × ℚ)) : List (Option ℚ) :=
  (List.range n).map (fun (i : ℕ) => series.lookup (t0 + (i : ℤ)))

/-- A 3-hour-native record series: values at `t0, t0 + 3, t0 + 6, …`. -/
def native3 (t0 : ℤ) : List ℚ → List (ℤ × ℚ)
  | [] => []
  | v :: vs => (t0, v) :: native3 (t0 + 3) vs

/-- The per-column resampling policy of `df_interp` (mod_class_met.py,
lines 259–275): columns in `cols_ffill` are forward-filled; the remaining
continuous columns are interpolated (`method='time'`; on the uniform
hourly index the time weights coincide with the positional weights of
`Obsdl.interpolateLinear`). -/
def resampleColumn (name : String) (col : List (Option ℚ)) : List (Option ℚ) :=
  if name ∈ colsFfill then ffillList col else Obsdl.interpolateLinear col

lemma lookup_native3_mul (vs : List ℚ) :
    ∀ (t0 : ℤ) (i : ℕ), (native3 t0 vs).lookup (t0 + 3 * (i : ℤ)) = vs[i]? := by
  induction vs with
  | nil => intro t0 i; simp [native3]
  | cons v vs ih =>
    intro t0 i
    cases i with
    | zero => simp [native3, List.lookup]
    | succ j =>
      have hne : (t0 + 3 * ((j : ℤ) + 1) == t0) = false := by
        simp; omega
      have harg : t0 + 3 * (((j + 1 : ℕ)) : ℤ) = (t0 + 3) + 3 * (j : ℤ) := by
        push_cast; ring
      rw [native3, harg]
      have := ih (t0 + 3) j
      simp only [List.lookup]
      have hne2 : ((t0 + 3) + 3 * (j : ℤ) == t0) = false := by
        simp; omega
      rw [hne2, this]
      simp

lemma lookup_native3_none (vs : List ℚ) :
    ∀ (t0 : ℤ) (k : ℤ), (∀ j : ℕ, k ≠ 3 * (j : ℤ)) →
      (native3 t0 vs).lookup (t0 + k) = none := by
  induction vs with
  | nil => intro t0 k _; simp [native3]
  | cons v vs ih =>
    intro t0 k hk
    have h0 : k ≠ 0 := by
      intro h
      exact hk 0 (by simp [h])
    have hne : (t0 + k == t0) = false := by
      simp only [beq_eq_false_iff_ne, ne_eq]
      omega
    have hk3 : ∀ j : ℕ, k - 3 ≠ 3 * (j : ℤ) := by
      intro j hj
      apply hk (j + 1)
      push_cast
      omega
    have htail := ih (t0 + 3) (k - 3) hk3
    rw [show t0 + 3 + (k - 3) = t0 + k by ring] at htail
    rw [native3]
    simp only [List.lookup]
    rw [hne, htail]

lemma interpAt_of_valid (l : List (Option ℚ)) (i : ℕ) (v : ℚ)
    (h : l[i]? = some (some v)) : Obsdl.interpAt l i = some v := by
  unfold Obsdl.interpAt
  rw [h]

/-- C8: hourly resampling uses forward fill for identity and RMK columns and
time interpolation for continuous physical columns; interpolating the
hourly reindex of a 3-hour-native series reproduces the original value at
every native sample hour exactly, and the interior hours between two
anchors of differing value are strictly monotonic (shown for the canonical
one-cell grid `[a, ·, ·, b]`, whose interior resolves to `(2a+b)/3` and
`(a+2b)/3`); an RMK column forward-fills the anchor value across the
interior hours. -/
theorem C8_resampling :
    ("KanID" ∈ colsFfill ∧ "kionRMK" ∈ colsFfill ∧ "kion" ∉ colsFfill) ∧
    (∀ (vs : List ℚ) (t0 : ℤ) (i : ℕ) (v : ℚ), vs[i]? = some v →
      (resampleColumn "kion"
          (reindexHourly t0 (3 * (vs.length - 1) + 1) (native3 t0 vs)))[3 * i]? =
        some (some v)) ∧
    (∀ a b : ℚ, resampleColumn "kion" [some a, none, none, some b] =
      [some a, some ((2 * a + b) / 3), some ((a + 2 * b) / 3), some b]) ∧
    (∀ a b : ℚ, a < b →
      a < (2 * a + b) / 3 ∧ (2 * a + b) / 3 < (a + 2 * b) / 3 ∧ (a + 2 * b) / 3 < b) ∧
    (∀ r r' : ℚ, resampleColumn "kionRMK" [some r, none, none, some r'] =
      [some r, some r, some r, some r']) := by
  refine ⟨by decide, ?_, ?_, ?_, ?_⟩
  · intro vs t0 i v hv
    have hi : i < vs.length := (List.getElem?_eq_some.mp hv).1
    have h3i : 3 * i < 3 * (vs.length - 1) + 1 := by omega
    have hgrid : (reindexHourly t0 (3 * (vs.length - 1) + 1) (native3 t0 vs))[3 * i]? =
        some (some v) := by
      unfold reindexHourly
      rw [List.getElem?_map, List.getElem?_range h3i]
      simp only [Option.map_some']
      rw [show t0 + ((3 * i : ℕ) : ℤ) = t0 + 3 * (i : ℤ) by push_cast; ring]
      rw [lookup_native3_mul, hv]
    have hlen : (reindexHourly t0 (3 * (vs.length - 1) + 1) (native3 t0 vs)).length =
        3 * (vs.length - 1) + 1 := by
      simp [reindexHourly]
    rw [resampleColumn, if_neg (by decide)]
    unfold Obsdl.interpolateLinear
    rw [List.getElem?_map, hlen, List.getElem?_range h3i, Option.map_some',
      interpAt_of_valid _ _ _ hgrid]
  · intro a b
    rw [resampleColumn, if_neg (by decide)]
    simp [Obsdl.interpolateLinear, Obsdl.interpAt, Obsdl.prevValid, Obsdl.nextValid,
      Obsdl.firstValid, List.range_succ]
    constructor <;> ring
  · intro a b hab
    refine ⟨by linarith, by linarith, by linarith⟩
  · intro r r'
    rw [resampleColumn, if_pos (by decide)]
    rfl

/-- C8 witness: the resampling theorem applied to the concrete two-anchor
3-hourly series `[1, 7]` and to the anchors 1 < 4. -/
theorem C8_resampling_witness :
    ((resampleColumn "kion"
        (reindexHourly 0 (3 * ([(1 : ℚ), 7].length - 1) + 1) (native3 0 [(1 : ℚ), 7])))[3 * 1]? =
      some (some (7 : ℚ))) ∧
    ((1 : ℚ) < (2 * 1 + 4) / 3 ∧ ((2 : ℚ) * 1 + 4) / 3 < (1 + 2 * 4) / 3 ∧
      ((1 : ℚ) + 2 * 4) / 3 < 4) :=
  ⟨C8_resampling.2.1 [(1 : ℚ), 7] 0 1 7 rfl,
   C8_resampling.2.2.2.1 1 4 (by norm_num)⟩

/-- The interval check and yearly-archive location of `Met_GWO.__create_df`
(mod_class_met.py, lines 143–173).  A datetime is modelled as a rational
number whose floor is its calendar year, so that comparison is the datetime
order and `int(start.strftime("%Y"))` is the floor; `sys.exit` becomes
`Except.error`.  The probe prefers the file of the year before the start
year (a cross-year interpolation anchor) and falls back to the start year;
finding neither is fatal; the end year is probed likewise; the resulting
year list is `range(Ys, Ye + 1)`. -/
def locateYearRange (files : List ℤ) (start endT : ℚ) : Except String (List ℤ) :=
  if start ≥ endT then Except.error "ERROR: start >= end"
  else
    let Ys : ℤ := ⌊start⌋
    let Ye : ℤ := ⌊endT⌋
    let Ys1 : ℤ := if Ys - 1 ∈ files then Ys - 1 else Ys
    if Ys1 ∈ files then
      let Ye1 : ℤ := if Ye + 1 ∈ files then Ye + 1 else Ye
      if Ye1 ∈ files then
        Except.ok ((List.range (Ye1 + 1 - Ys1).toNat).map (fun (i : ℕ) => Ys1 + (i : ℤ)))
      else
        Except.error "ERROR: fend does not exist or has more than one file."
    else
      Except.error "ERROR: fstart does not exist or has more than one file."

/-- C9: constructing a reconstruction with start ≥ end is a fatal
configuration error; a station directory with no yearly archive at all is
fatal; and, precisely, a missing start-year file (with no previous-year
file either) aborts with the fstart error — the function returns
immediately with `Except.error`, so the failure is not retried. -/
theorem C9_fatal_errors :
    (∀ (files : List ℤ) (s e : ℚ), e ≤ s →
      locateYearRange files s e = Except.error "ERROR: start >= end") ∧
    (∀ s e : ℚ, ∃ msg, locateYearRange [] s e = Except.error msg) ∧
    (∀ (files : List ℤ) (s e : ℚ), s < e → ⌊s⌋ ∉ files → ⌊s⌋ - 1 ∉ files →
      locateYearRange files s e =
        Except.error "ERROR: fstart does not exist or has more than one file.") := by
  refine ⟨?_, ?_, ?_⟩
  · intro files s e h
    unfold locateYearRange
    rw [if_pos h]
  · intro s e
    by_cases h : s ≥ e
    · exact ⟨"ERROR: start >= end", by unfold locateYearRange; rw [if_pos h]⟩
    · refine ⟨"ERROR: fstart does not exist or has more than one file.", ?_⟩
      unfold locateYearRange
      rw [if_neg h]
      simp
  · intro files s e hlt h1 h2
    unfold locateYearRange
    rw [if_neg (not_le.mpr hlt)]
    simp only [if_neg h2, if_neg h1]

/-- C9 witness: the fatal-error theorem applied at concrete intervals — an
inverted interval over an arbitrary archive set, and a 2000–2001 request
against a directory holding only the 1995 file. -/
theorem C9_fatal_errors_witness :
    (locateYearRange [1995] 2000 1999 = Except.error "ERROR: start >= end") ∧
    (locateYearRange [1995] 2000 2001 =
      Except.error "ERROR: fstart does not exist or has more than one file.") :=
  ⟨C9_fatal_errors.1 [1995] 2000 1999 (by norm_num),
   C9_fatal_errors.2.2 [1995] 2000 2001 (by norm_num)
     (by norm_num) (by norm_num)⟩

/-! ### `Met.set_missing_values` -/

/-- A pandas DataFrame as `set_missing_values` sees it: named columns and
row-major cells, `none` standing for `NaN`. -/
structure Frame where
  cols : List String
  rows : List (List (Option ℚ))
deriving DecidableEq

/-- The column position written by one masking pass:
`df.columns.get_loc(rmk_col) - 1`.  When the RMK column is at position 0,
pandas `iloc[:, -1]` wraps to the last column. -/
def valIdx (cols : List String) (rmkCol : String) : ℕ :=
  let i := cols.indexOf rmkCol
  if i = 0 then cols.length - 1 else i - 1

/-- One row under `mask(df[rmk_col] == rmk_nan, np.nan)` for a single code:
when the condition cell (current contents) equals the code, the value cell
is set to `NaN`.  A `NaN` condition cell compares unequal to every code. -/
def maskStep (condIdx vIdx : ℕ) (code : ℚ) (r : List (Option ℚ)) : List (Option ℚ) :=
  if r[condIdx]? = some (some code) then r.set vIdx none else r

/-- `df.iloc[:, idx].mask(df[rmk_col] == rmk_nan, np.nan, inplace=True)`
over all rows. -/
def maskRows (condIdx vIdx : ℕ) (code : ℚ) (rows : List (List (Option ℚ))) :
    List (List (Option ℚ)) :=
  rows.map (maskStep condIdx vIdx code)

/-- `Met.set_missing_values` (mod_class_met.py, lines 78–85): for each RMK
column name and each listed code, in order, mask the column immediately to
the left of the RMK column on the rows where the RMK column currently
equals the code. -/
def set_missing_values (df : Frame) (rmkCols : List String) (rmkNans : List ℚ) : Frame :=
  { cols := df.cols
    rows := rmkCols.foldl
      (fun rs rmkCol =>
        rmkNans.foldl
          (fun rs2 code =>
            maskRows (df.cols.indexOf rmkCol) (valIdx df.cols rmkCol) code rs2)
          rs)
      df.rows }

/-- C10, counterexample: columns `[X, A, B]` with `A` immediately left of
`B`, both `A` and `B` listed as RMK columns (processed in the order
`B, A`), one row `[1, 5, 5]` and listed code 5.  Masking for `B` nulls the
`A` cell; the later pass for `A` then reads `NaN ≠ 5` and leaves the `X`
cell untouched, although `A` originally equalled the listed code — so the
cell left of `A` is NOT replaced, refuting the exactness claim (which
demands `X = NaN`). -/
theorem C10_counterexample :
    (set_missing_values ⟨["X", "A", "B"], [[some 1, some 5, some 5]]⟩
        ["B", "A"] [5]).rows = [[some 1, none, some 5]] ∧
      [[(some 1 : Option ℚ), none, some 5]] ≠ [[none, none, some 5]] := by
  constructor
  · decide
  · decide

/-- Whether a condition cell (as read by `==` against a code list) matches
one of the listed codes; a `NaN` or absent cell never matches. -/
def cellMatches (codes : List ℚ) (o : Option (Option ℚ)) : Bool :=
  match o with
  | some (some v) => codes.contains v
  | _ => false

/-- The inner loop of `set_missing_values` on one row: mask once per listed
code, in order. -/
def maskRowCodes (condIdx vIdx : ℕ) (codes : List ℚ) (r : List (Option ℚ)) :
    List (Option ℚ) :=
  codes.foldl (fun r code => maskStep condIdx vIdx code r) r

/-- Both loops of `set_missing_values` on one row. -/
def maskRowAll (cols rmkCols : List String) (codes : List ℚ) (r : List (Option ℚ)) :
    List (Option ℚ) :=
  rmkCols.foldl (fun r c => maskRowCodes (cols.indexOf c) (valIdx cols c) codes r) r

/-- The claim-side description of one masked row: position `j` is hit when
some listed RMK column sits at position `j + 1` and that RMK cell of the
INPUT row equals a listed code. -/
def specHit (cols rmkCols : List String) (codes : List ℚ) (r : List (Option ℚ))
    (j : ℕ) : Bool :=
  rmkCols.any (fun c => (cols.indexOf c - 1 == j) && cellMatches codes r[cols.indexOf c]?)

/-- Claim-side masked row, position-indexed worker. -/
def specMaskRowAux (cols rmkCols : List String) (codes : List ℚ)
    (orig : List (Option ℚ)) : ℕ → List (Option ℚ) → List (Option ℚ)
  | _, [] => []
  | j, cell :: t =>
    (if specHit cols rmkCols codes orig j then none else cell) ::
      specMaskRowAux cols rmkCols codes orig (j + 1) t

/-- Claim-side description of `set_missing_values` on one row: exactly the
cells immediately left of a listed RMK column whose (input) RMK cell equals
a listed code become `NaN`; every other cell is unchanged. -/
def specMaskRow (cols rmkCols : List String) (codes : List ℚ)
    (r : List (Option ℚ)) : List (Option ℚ) :=
  specMaskRowAux cols rmkCols codes r 0 r

lemma foldl_map_comm {α β : Type} (g : β → α → α) :
    ∀ (xs : List β) (rows : List α),
      xs.foldl (fun rs x => rs.map (g x)) rows =
        rows.map (fun r => xs.foldl (fun r x => g x r) r)
  | [], rows => by simp
  | x :: xs, rows => by
    simp only [List.foldl_cons]
    rw [foldl_map_comm g xs (rows.map (g x)), List.map_map]
    rfl

lemma set_missing_values_rows (df : Frame) (rmkCols : List String) (codes : List ℚ) :
    (set_missing_values df rmkCols codes).rows =
      df.rows.map (maskRowAll df.cols rmkCols codes) := by
  show rmkCols.foldl _ df.rows = _
  induction rmkCols generalizing df with
  | nil =>
    have hid : maskRowAll df.cols [] codes = fun r => r := rfl
    rw [hid, List.map_id']
    rfl
  | cons c cs ih =>
    simp only [List.foldl_cons]
    have hinner : ∀ rows : List (List (Option ℚ)),
        codes.foldl
          (fun rs2 code =>
            maskRows (df.cols.indexOf c) (valIdx df.cols c) code rs2) rows =
          rows.map (maskRowCodes (df.cols.indexOf c) (valIdx df.cols c) codes) := by
      intro rows
      simp only [maskRows]
      exact foldl_map_comm _ codes rows
    rw [hinner]
    have h2 := ih { cols := df.cols,
                    rows := df.rows.map
                      (maskRowCodes (df.cols.indexOf c) (valIdx df.cols c) codes) }
    simp only at h2
    rw [h2, List.map_map]
    rfl

lemma maskRowCodes_eq (condIdx vIdx : ℕ) (hne : condIdx ≠ vIdx) (codes : List ℚ) :
    ∀ r : List (Option ℚ),
      maskRowCodes condIdx vIdx codes r =
        if cellMatches codes r[condIdx]? then r.set vIdx none else r := by
  induction codes with
  | nil =>
    intro r
    simp only [maskRowCodes, List.foldl_nil]
    rcases h : r[condIdx]? with _ | o
    · simp [cellMatches]
    · cases o with
      | none => simp [cellMatches]
      | some v => simp [cellMatches]
  | cons code rest ih =>
    intro r
    show maskRowCodes condIdx vIdx rest (maskStep condIdx vIdx code r) = _
    by_cases hc : r[condIdx]? = some (some code)
    · rw [maskStep, if_pos hc, ih (r.set vIdx none)]
      have hpre : (r.set vIdx none)[condIdx]? = r[condIdx]? :=
        List.getElem?_set_ne (Ne.symm hne)
      rw [hpre, hc]
      have hm : cellMatches (code :: rest) (some (some code)) = true := by
        simp [cellMatches]
      rw [hm, if_pos rfl]
      split_ifs with h
      · rw [List.set_set]
      · rfl
    · rw [maskStep, if_neg hc, ih r]
      have hcond : cellMatches rest r[condIdx]? = cellMatches (code :: rest) r[condIdx]? := by
        rcases h : r[condIdx]? with _ | o
        · simp [cellMatches]
        · cases o with
          | none => simp [cellMatches]
          | some v =>
            have hv : v ≠ code := by
              intro hv
              exact hc (by rw [h, hv])
            simp [cellMatches, List.contains_cons, hv]
      rw [hcond]

lemma specMaskRowAux_getElem? (cols rmkCols : List String) (codes : List ℚ)
    (orig : List (Option ℚ)) :
    ∀ (l : List (Option ℚ)) (j k : ℕ),
      (specMaskRowAux cols rmkCols codes orig j l)[k]? =
        (l[k]?).map
          (fun cell => if specHit cols rmkCols codes orig (j + k) then none else cell) := by
  intro l
  induction l with
  | nil => intro j k; simp [specMaskRowAux]
  | cons cell t ih =>
    intro j k
    cases k with
    | zero => simp [specMaskRowAux]
    | succ k =>
      simp only [specMaskRowAux, List.getElem?_cons_succ]
      rw [ih (j + 1) k]
      have : j + 1 + k = j + (k + 1) := by omega
      rw [this]

lemma specMaskRow_getElem? (cols rmkCols : List String) (codes : List ℚ)
    (r : List (Option ℚ)) (k : ℕ) :
    (specMaskRow cols rmkCols codes r)[k]? =
      (r[k]?).map (fun cell => if specHit cols rmkCols codes r k then none else cell) := by
  unfold specMaskRow
  rw [specMaskRowAux_getElem?]
  simp

lemma specHit_congr (cols rmkCols : List String) (codes : List ℚ)
    (r1 r2 : List (Option ℚ))
    (h : ∀ c ∈ rmkCols, r1[cols.indexOf c]? = r2[cols.indexOf c]?) (k : ℕ) :
    specHit cols rmkCols codes r1 k = specHit cols rmkCols codes r2 k := by
  unfold specHit
  induction rmkCols with
  | nil => rfl
  | cons c cs ih =>
    simp only [List.any_cons]
    rw [h c (List.mem_cons_self c cs),
      ih (fun c2 hc2 => h c2 (List.mem_cons_of_mem c hc2))]

lemma maskRowAll_eq_spec (cols : List String) (codes : List ℚ) :
    ∀ (rmkCols : List String) (r : List (Option ℚ)),
      r.length = cols.length →
      (∀ c ∈ rmkCols, cols.indexOf c ≠ 0) →
      (∀ c1 ∈ rmkCols, ∀ c2 ∈ rmkCols, cols.indexOf c1 - 1 ≠ cols.indexOf c2) →
      maskRowAll cols rmkCols codes r = specMaskRow cols rmkCols codes r := by
  intro rmkCols
  induction rmkCols with
  | nil =>
    intro r hr _ _
    apply List.ext_getElem?
    intro k
    rw [show maskRowAll cols [] codes r = r from rfl, specMaskRow_getElem?]
    rcases h : r[k]? with _ | cell
    · rfl
    · simp [specHit]
  | cons c cs ih =>
    intro r hr hpos hdisj
    have hpc : cols.indexOf c ≠ 0 := hpos c (List.mem_cons_self c cs)
    have hvi : valIdx cols c = cols.indexOf c - 1 := if_neg hpc
    have hne : cols.indexOf c ≠ valIdx cols c := by rw [hvi]; omega
    have hstep : maskRowAll cols (c :: cs) codes r =
        maskRowAll cols cs codes (maskRowCodes (cols.indexOf c) (valIdx cols c) codes r) :=
      rfl
    rw [hstep, maskRowCodes_eq _ _ hne]
    have hposr : ∀ c2 ∈ cs, cols.indexOf c2 ≠ 0 :=
      fun c2 hc2 => hpos c2 (List.mem_cons_of_mem c hc2)
    have hdisjr : ∀ c1 ∈ cs, ∀ c2 ∈ cs, cols.indexOf c1 - 1 ≠ cols.indexOf c2 :=
      fun c1 h1 c2 h2 =>
        hdisj c1 (List.mem_cons_of_mem c h1) c2 (List.mem_cons_of_mem c h2)
    have hconsHit : ∀ k, specHit cols (c :: cs) codes r k =
        (((cols.indexOf c - 1 == k) && cellMatches codes r[cols.indexOf c]?) ||
          specHit cols cs codes r k) := by
      intro k
      simp [specHit, List.any_cons]
    by_cases hit : cellMatches codes r[cols.indexOf c]? = true
    · rw [if_pos hit]
      have hlen1 : (r.set (valIdx cols c) none).length = cols.length := by
        rw [List.length_set]; exact hr
      rw [ih (r.set (valIdx cols c) none) hlen1 hposr hdisjr]
      apply List.ext_getElem?
      intro k
      rw [specMaskRow_getElem?, specMaskRow_getElem?]
      have hhit : specHit cols cs codes (r.set (valIdx cols c) none) k =
          specHit cols cs codes r k := by
        apply specHit_congr
        intro c2 hc2
        apply List.getElem?_set_ne
        rw [hvi]
        exact hdisj c (List.mem_cons_self c cs) c2 (List.mem_cons_of_mem c hc2)
      rw [hhit, hconsHit k]
      by_cases hk : valIdx cols c = k
      · subst hk
        have hbeq : (cols.indexOf c - 1 == valIdx cols c) = true := by
          rw [← hvi]; exact beq_self_eq_true _
        rw [hbeq, hit]
        simp only [Bool.true_and, Bool.true_or]
        rcases Nat.lt_or_ge (valIdx cols c) r.length with hklt | hkge
        · have hset : (r.set (valIdx cols c) none)[valIdx cols c]? = some none := by
            rw [List.getElem?_set]
            simp [hklt]
          rw [hset, List.getElem?_eq_getElem hklt]
          simp
        · have h1 : (r.set (valIdx cols c) none)[valIdx cols c]? = none :=
            List.getElem?_eq_none (by rw [List.length_set]; exact hkge)
          have h2 : r[valIdx cols c]? = none := List.getElem?_eq_none hkge
          rw [h1, h2]
          rfl
      · have h1 : (r.set (valIdx cols c) none)[k]? = r[k]? := List.getElem?_set_ne hk
        have hbeq : (cols.indexOf c - 1 == k) = false := by
          rw [← hvi]; exact beq_eq_false_iff_ne.mpr hk
        rw [h1, hbeq]
        simp only [Bool.false_and, Bool.false_or]
    · rw [if_neg hit]
      rw [ih r hr hposr hdisjr]
      apply List.ext_getElem?
      intro k
      rw [specMaskRow_getElem?, specMaskRow_getElem?]
      have hfalse : cellMatches codes r[cols.indexOf c]? = false :=
        Bool.not_eq_true _ |>.mp hit
      rw [hconsHit k, hfalse]
      simp only [Bool.and_false, Bool.false_or]

/-- C10 (amended): provided every listed RMK column sits at a positive
column position and no listed RMK column is the immediate left neighbour of
another listed one (so that masking one pass cannot perturb the condition
column of a later pass), `set_missing_values` replaces with `NaN` exactly
the cells in the column immediately to the left of each listed RMK column
on the rows where that RMK column (in the input frame) equals one of the
listed codes, and leaves every other cell — including all RMK columns —
unchanged; without that proviso the sequential in-place masking reads
already-masked condition cells, as the counterexample shows. -/
theorem C10_amended (df : Frame) (rmkCols : List String) (codes : List ℚ)
    (hlen : ∀ r ∈ df.rows, r.length = df.cols.length)
    (hpos : ∀ c ∈ rmkCols, df.cols.indexOf c ≠ 0)
    (hdisj : ∀ c1 ∈ rmkCols, ∀ c2 ∈ rmkCols,
      df.cols.indexOf c1 - 1 ≠ df.cols.indexOf c2) :
    (set_missing_values df rmkCols codes).cols = df.cols ∧
    (set_missing_values df rmkCols codes).rows =
      df.rows.map (specMaskRow df.cols rmkCols codes) := by
  refine ⟨rfl, ?_⟩
  rw [set_missing_values_rows]
  exact List.map_congr_left
    (fun r hr => maskRowAll_eq_spec df.cols codes rmkCols r (hlen r hr) hpos hdisj)

/-- C10 witness: the amended theorem applied to a concrete two-column frame
`[kous, kousRMK]` with one row `[3, 1]`, RMK column `kousRMK` and code
list `[1]`. -/
theorem C10_amended_witness :
    (set_missing_values ⟨["kous", "kousRMK"], [[some 3, some 1]]⟩
        ["kousRMK"] [1]).cols = ["kous", "kousRMK"] ∧
    (set_missing_values ⟨["kous", "kousRMK"], [[some 3, some 1]]⟩
        ["kousRMK"] [1]).rows =
      [[(some 3 : Option ℚ), some 1]].map
        (specMaskRow ["kous", "kousRMK"] ["kousRMK"] [1]) :=
  C10_amended ⟨["kous", "kousRMK"], [[some 3, some 1]]⟩ ["kousRMK"] [1]
    (by decide) (by decide) (by decide)

end Met

end GwoAmd
